import Mathlib

/-
  Shallow embedding of the mindcraft-gui provisioning tool
  (src/src/utils.py, src/src/installer.py, src/src/main.py).

  Python machine effects (subprocess outcomes, network fetches, filesystem
  queries) are modelled as explicit oracle values threaded into the embedded
  functions; log emission is modelled as an accumulated list of strings.
  Log message texts follow the source f-strings, with quotes around
  interpolated values and per-chunk progress lines elided.
-/

namespace Mindcraft

/-- Python exception kinds raised by the embedded code paths. -/
inductive PyExc where
  | runtimeError (msg : String)
  | calledProcessError
  | fileNotFoundError
  | badZipFile
  | osError
  | ioError
  | typeError
  | keyError
  | otherError
deriving DecidableEq

def excName : PyExc → String
  | PyExc.runtimeError _ => "RuntimeError"
  | PyExc.calledProcessError => "CalledProcessError"
  | PyExc.fileNotFoundError => "FileNotFoundError"
  | PyExc.badZipFile => "BadZipFile"
  | PyExc.osError => "OSError"
  | PyExc.ioError => "OSError"
  | PyExc.typeError => "TypeError"
  | PyExc.keyError => "KeyError"
  | PyExc.otherError => "Exception"

def excMsg : PyExc → String
  | PyExc.runtimeError m => m
  | _ => ""

def isOkE {α : Type} : Except PyExc α → Bool
  | Except.ok _ => true
  | Except.error _ => false

/- ---------------------------------------------------------------------
   utils.py: run_command call-binding model (lines 66-115) and the
   is_tool_installed probe (lines 117-141).
   --------------------------------------------------------------------- -/

/-- Formal parameters of run_command (utils.py line 66):
    def run_command(log_func, command, cwd=None, shell=True, check=True, text=True). -/
def run_command_params : List String :=
  ["log_func", "command", "cwd", "shell", "check", "text"]

/-- Keyword arguments passed at the call site inside is_tool_installed
    (utils.py line 131): run_command(log_func, cmd, shell=True, check=True, capture_output=True). -/
def probe_call_kwargs : List String :=
  ["shell", "check", "capture_output"]

/-- Python keyword binding: the call succeeds in binding only when every
    keyword names a formal parameter; otherwise a TypeError is raised at the
    call site before the callee body runs. -/
def bindOk : Bool :=
  probe_call_kwargs.all (fun k => run_command_params.contains k)

/-- Outcome of a child process, had one been spawned. -/
inductive ProcOutcome where
  | exits (code : Int)
  | raises
deriving DecidableEq

/-- Oracle for one is_tool_installed call: what shutil.which returns, and what
    the version-query child would do if it were spawned. -/
structure ProbeWorld where
  whichResult : Option String
  childOutcome : ProcOutcome
deriving DecidableEq

/-- Model of the version-query invocation at utils.py line 131.  Keyword
    binding is checked first, exactly as Python does: an unexpected keyword
    raises TypeError without entering run_command (so no child is spawned).
    Were binding to succeed, check=True would turn a nonzero exit into
    CalledProcessError. The Bool records whether a child was spawned. -/
def run_command_capture (w : ProbeWorld) : Except PyExc Unit × Bool :=
  if bindOk then
    match w.childOutcome with
    | ProcOutcome.exits code =>
        if code == 0 then (Except.ok (), true) else (Except.error PyExc.calledProcessError, true)
    | ProcOutcome.raises => (Except.error PyExc.otherError, true)
  else (Except.error PyExc.typeError, false)

structure ProbeResult where
  result : Bool
  childSpawned : Bool
  logs : List String
deriving DecidableEq

def checkingMsg (tool : String) : String :=
  "Checking if " ++ tool ++ " is installed..."

/-- utils.py lines 117-141, is_tool_installed.  Every path that resolves the
    tool on the search path returns true; the only false return follows a
    failed shutil.which resolution. -/
def is_tool_installed (w : ProbeWorld) (tool : String) (versionFlag : Option String) : ProbeResult :=
  let l0 := [checkingMsg tool]
  match w.whichResult with
  | none =>
      { result := false, childSpawned := false,
        logs := l0 ++ [tool ++ " not found in PATH."] }
  | some p =>
      let l1 := l0 ++ [tool ++ " found at: " ++ p]
      match versionFlag with
      | none =>
          { result := true, childSpawned := false,
            logs := l1 ++ [tool ++ " found (skipping version check)."] }
      | some _ =>
          match run_command_capture w with
          | (Except.ok _, sp) =>
              { result := true, childSpawned := sp,
                logs := l1 ++ [tool ++ " version check successful."] }
          | (Except.error _, sp) =>
              { result := true, childSpawned := sp,
                logs := l1 ++ [tool ++ " found, but version check failed. Assuming usable but may have issues."] }

/- ---------------------------------------------------------------------
   utils.py: stream_command (lines 11-64).
   --------------------------------------------------------------------- -/

/-- Behavior of the launched process: it either runs producing a sequence of
    output lines (contents, newline terminator excluded) and exits with a
    code, or the program is not found (FileNotFoundError from Popen), or an
    unexpected error occurs. -/
inductive StreamBehavior where
  | runs (lines : List String) (exitCode : Int)
  | progNotFound
  | unexpected
deriving DecidableEq

structure StreamRes where
  result : Bool
  logs : List String
deriving DecidableEq

/-- Python str.rstrip (no arguments): drop trailing whitespace. -/
def pyRstrip (s : String) : String :=
  String.mk ((s.data.reverse.dropWhile (fun c => c.isWhitespace)).reverse)

/-- utils.py lines 11-64, stream_command.  Each line read from the merged
    stdout/stderr pipe is forwarded to the log sink after rstrip; after the
    stream closes the process is waited on and the return code decides the
    verdict.  FileNotFoundError is logged and turned into false. -/
def stream_command (cmd : String) (b : StreamBehavior) : StreamRes :=
  let header := "Streaming command: " ++ cmd
  match b with
  | StreamBehavior.runs lines code =>
      let forwarded := lines.map pyRstrip
      if code == 0 then
        { result := true,
          logs := header :: (forwarded ++ ["Command finished successfully (Return Code: 0)."]) }
      else
        { result := false,
          logs := header :: (forwarded ++ ["ERROR: Command failed (Return Code: " ++ toString code ++ ")."]) }
  | StreamBehavior.progNotFound =>
      { result := false,
        logs := [header, "ERROR: Command not found - ensure the program is installed and in PATH."] }
  | StreamBehavior.unexpected =>
      { result := false,
        logs := [header, "ERROR: An unexpected error occurred while streaming command: " ++ cmd] }

/- ---------------------------------------------------------------------
   utils.py: download_file (lines 143-187).
   --------------------------------------------------------------------- -/

/-- Outcome of the fetch phase (request, status check, chunked body write):
    full success, or one of the exception classes the source catches. -/
inductive FetchOutcome where
  | success
  | timeout
  | requestError
  | ioError
  | otherError
deriving DecidableEq

def isFail : FetchOutcome → Bool
  | FetchOutcome.success => false
  | _ => true

/-- Oracle for one download_file call: the fetch outcome, whether the
    destination file exists at cleanup time after a failure, and whether
    os.remove of it succeeds. -/
structure DlWorld where
  outcome : FetchOutcome
  partialOnFail : Bool
  removeOk : Bool
deriving DecidableEq

structure DlResult where
  result : Bool
  fileRemains : Bool
  propagated : Option PyExc
  logs : List String
deriving DecidableEq

/-- Failure tail of download_file (utils.py lines 170-187): log the cause,
    then attempt cleanup of the partial file; a failing os.remove is only a
    logged warning, leaving the file in place.  Returns false, propagating
    nothing. -/
def downloadFail (dest : String) (w : DlWorld) (cause : String) (attempt : String) : DlResult :=
  if w.partialOnFail then
    if w.removeOk then
      { result := false, fileRemains := false, propagated := none,
        logs := [attempt, cause, "Cleaned up partial download: " ++ dest] }
    else
      { result := false, fileRemains := true, propagated := none,
        logs := [attempt, cause, "WARNING: Could not remove partial download " ++ dest] }
  else
    { result := false, fileRemains := false, propagated := none,
      logs := [attempt, cause] }

/-- The failure-cause log line per except clause (utils.py lines 170-178). -/
def dlCauseLog (url dest : String) : FetchOutcome → String
  | FetchOutcome.success => ""
  | FetchOutcome.timeout => "ERROR: Timeout occurred while downloading " ++ url
  | FetchOutcome.requestError => "ERROR: Failed to download " ++ url
  | FetchOutcome.ioError => "ERROR: Could not write file " ++ dest
  | FetchOutcome.otherError => "ERROR: An unexpected error occurred during download."

/-- utils.py lines 143-187, download_file.  All four except clauses (Timeout,
    RequestException, IOError, Exception) fall through to the shared cleanup
    and the final return False; no exception escapes. -/
def download_file (url dest : String) (w : DlWorld) : DlResult :=
  let attempt := "Attempting to download " ++ url ++ " to " ++ dest ++ "..."
  match w.outcome with
  | FetchOutcome.success =>
      { result := true, fileRemains := true, propagated := none,
        logs := [attempt, "Download complete. File saved to " ++ dest] }
  | FetchOutcome.timeout =>
      downloadFail dest w (dlCauseLog url dest FetchOutcome.timeout) attempt
  | FetchOutcome.requestError =>
      downloadFail dest w (dlCauseLog url dest FetchOutcome.requestError) attempt
  | FetchOutcome.ioError =>
      downloadFail dest w (dlCauseLog url dest FetchOutcome.ioError) attempt
  | FetchOutcome.otherError =>
      downloadFail dest w (dlCauseLog url dest FetchOutcome.otherError) attempt

/- ---------------------------------------------------------------------
   installer.py: keys.example.json rename step (lines 235-255).
   --------------------------------------------------------------------- -/

/-- The two key files of the extracted project folder, by content. -/
structure KeyFS where
  exampleKey : Option String
  finalKey : Option String
deriving DecidableEq

structure KeyStepRes where
  fs : KeyFS
  logs : List String
deriving DecidableEq

/-- installer.py lines 240-255: rename keys.example.json to keys.json when
    the template exists and the final file does not; os.rename failure
    (OSError) is caught, logged, and leaves both files unchanged. -/
def renameKeysStep (renameOk : Bool) (fs : KeyFS) : KeyStepRes :=
  match fs.exampleKey with
  | some c =>
      match fs.finalKey with
      | some _ =>
          { fs := fs, logs := ["keys.json already exists. Skipping rename."] }
      | none =>
          if renameOk then
            { fs := { exampleKey := none, finalKey := some c },
              logs := ["Renaming keys.example.json to keys.json", "Rename successful."] }
          else
            { fs := fs,
              logs := ["Renaming keys.example.json to keys.json",
                       "ERROR: Failed to rename key file.",
                       "WARNING: Could not rename key file. Manual rename might be required."] }
  | none =>
      match fs.finalKey with
      | some _ =>
          { fs := fs, logs := ["Warning: keys.example.json not found. Cannot rename.",
                               "keys.json already exists."] }
      | none =>
          { fs := fs, logs := ["Warning: keys.example.json not found. Cannot rename."] }

/- ---------------------------------------------------------------------
   installer.py line 261 and main.py lines 44-49: config document.
   --------------------------------------------------------------------- -/

/-- Minimal JSON value model for the config document. -/
inductive JVal where
  | num (t : Int)
  | obj (fields : List (String × JVal))

/-- installer.py line 261: json.dumps with keys downloaded and settings. -/
def installerConfig (t : Int) : List (String × JVal) :=
  [("downloaded", JVal.num t), ("settings", JVal.obj [])]

def configDocKeys : List String := ["downloaded", "settings"]

/-- Python dict subscript: a missing key raises KeyError. -/
def dictGet (d : List (String × JVal)) (k : String) : Except PyExc JVal :=
  match d.find? (fun p => p.1 == k) with
  | some p => Except.ok p.2
  | none => Except.error PyExc.keyError

/-- main.py line 49: the main window reads config with key installed_time. -/
def mainWindowInstalledTimeRead (cfg : List (String × JVal)) : Except PyExc JVal :=
  dictGet cfg "installed_time"

/- ---------------------------------------------------------------------
   installer.py: configuration constants (lines 26-38) and the worker
   pipeline InstallerWorker.run (lines 45-287).
   --------------------------------------------------------------------- -/

def NODE_VERSION : String := "v22.15.0"

def NODE_INSTALLER_URL : String :=
  "https://nodejs.org/dist/" ++ NODE_VERSION ++ "/node-" ++ NODE_VERSION ++ "-x64.msi"

def NODE_INSTALLER_FILENAME : String := "node-" ++ NODE_VERSION ++ "-x64.msi"

def GIT_INSTALLER_URL : String :=
  "https://github.com/git-for-windows/git/releases/download/v2.49.0.windows.1/Git-2.49.0-64-bit.exe"

def GIT_INSTALLER_FILENAME : String := "Git-2.49.0-64-bit.exe"

def GIT_WINGET_ID : String := "Git.Git"

def PROJECT_ZIP_URL : String :=
  "https://github.com/kolbytn/mindcraft/archive/refs/heads/main.zip"

def PROJECT_ZIP_FILENAME : String := "mindcraft.zip"

def PROJECT_EXTRACTED_FOLDER_NAME : String := "mindcraft-main"

/-- The installation root (os.path.dirname(sys.executable)), abstract. -/
def installRoot : String := "<install-root>"

def installerDir : String := installRoot ++ "\\installers"

def gitInstallerPath : String := installerDir ++ "\\" ++ GIT_INSTALLER_FILENAME

def nodeInstallerPath : String := installerDir ++ "\\" ++ NODE_INSTALLER_FILENAME

def projectZipPath : String := installRoot ++ "\\" ++ PROJECT_ZIP_FILENAME

def projectExtractedPath : String := installRoot ++ "\\" ++ PROJECT_EXTRACTED_FOLDER_NAME

/-- os.path.join for two Windows path components. -/
def joinWin (a b : String) : String := a ++ "\\" ++ b

/-- Worker-visible process state: ordered log lines emitted so far, the
    current process search-path view, whether os.chdir to the install root
    has happened, and the keys of the config document once written. -/
structure St where
  logs : List String
  path : List String
  cwdChanged : Bool
  configKeys : Option (List String)
deriving DecidableEq

def emit (s : String) (st : St) : St :=
  { st with logs := st.logs ++ [s] }

def emitMany (ls : List String) (st : St) : St :=
  { st with logs := st.logs ++ ls }

/-- Oracle for one full InstallerWorker.run execution: result of every
    external probe, subprocess, fetch and filesystem operation, in pipeline
    order.  One field per call site. -/
structure RunEnv where
  programFiles : String
  basePath : List String
  mkdirBaseOk : Bool
  mkdirInstOk : Bool
  chdirOk : Bool
  gitProbe1 : Bool
  wingetAvailable : Bool
  wingetRunOk : Bool
  gitProbeAfterWinget : Bool
  gitProbeManualGuard : Bool
  gitDl : DlWorld
  gitInstallerRunOk : Bool
  gitProbeAfterManual : Bool
  nodeProbe1 : Bool
  npmProbe1 : Bool
  nodeDl : DlWorld
  msiRunOk : Bool
  nodeProbe2 : Bool
  npmProbe2 : Bool
  gitProbe2 : Bool
  staleZipExists : Bool
  staleZipRemoveOk : Bool
  staleDirExists : Bool
  staleDirRemoveOk : Bool
  projDl : DlWorld
  zipExtractOk : Bool
  extractedDirExists : Bool
  zipCleanupExists : Bool
  zipCleanupRemoveOk : Bool
  projectDirAtNpm : Bool
  npmProbeForInstall : Bool
  npmStream : StreamBehavior
  keysFS : KeyFS
  renameOk : Bool
  configWriteOk : Bool
  chdirBackOk : Bool
deriving DecidableEq

def initSt (env : RunEnv) : St :=
  { logs := ["Installation process started."], path := env.basePath,
    cwdChanged := false, configKeys := none }

/-- A probe call inside the worker: is_tool_installed with the given which
    outcome (the child outcome is irrelevant, see run_command_capture). -/
def probeTool (found : Bool) (tool : String) (flag : Option String) (st : St) : St × Bool :=
  let w : ProbeWorld :=
    { whichResult := if found then some ("<path-to-" ++ tool ++ ">") else none,
      childOutcome := ProcOutcome.exits 0 }
  let r := is_tool_installed w tool flag
  (emitMany r.logs st, r.result)

/-- A run_command call inside the worker (utils.py lines 66-115): logs the
    command, then either finishes with code 0 or raises CalledProcessError
    (check=True), which run_command re-raises to the worker. -/
def runCommandCall (cmd : String) (ok : Bool) (st : St) : St × Except PyExc Unit :=
  let st := emit ("Running command: " ++ cmd) st
  if ok then
    (emit "Command finished successfully (Return Code: 0)." st, Except.ok ())
  else
    (emit ("ERROR: Command failed: " ++ cmd) st, Except.error PyExc.calledProcessError)

/-- A download_file call inside the worker: appends its logs, yields verdict. -/
def downloadCall (url dest : String) (w : DlWorld) (st : St) : St × Bool :=
  let r := download_file url dest w
  (emitMany r.logs st, r.result)

/-- Modelled from the spec: update_process_path is imported from the
    utilities module at installer.py line 23 but is absent from
    src/src/utils.py.  The spec (section 4.5 step 3) describes it as a
    best-effort refresh of the current process search-path view that appends
    the given conventional install locations, so subsequently spawned child
    steps can resolve the tools; it logs what it does and never raises. -/
def update_process_path (paths : List String) (st : St) : St :=
  { st with path := st.path ++ paths,
            logs := st.logs ++ paths.map (fun p => "Added to process PATH: " ++ p) }

/-- installer.py lines 52-64: ensure base and installer directories exist,
    then chdir into the install root.  Each os call may raise OSError. -/
def prepDirs (env : RunEnv) (st : St) : St × Except PyExc Unit :=
  let st := emit ("Ensuring base directory exists: " ++ installRoot) st
  if env.mkdirBaseOk then
    let st := emit ("Ensuring installer directory exists: " ++ installerDir) st
    if env.mkdirInstOk then
      if env.chdirOk then
        (emit ("Changed working directory to: " ++ installRoot) { st with cwdChanged := true },
         Except.ok ())
      else (st, Except.error PyExc.osError)
    else (st, Except.error PyExc.osError)
  else (st, Except.error PyExc.osError)

def gitSectionHeader : String := "\n--- Checking/Installing Git ---"

def nodeSectionHeader : String := "\n--- Checking/Installing Node.js ---"

/-- installer.py lines 67-104: check/install Git.  The winget path catches
    its own run_command failure and falls back; the manual path raises
    RuntimeError when the installer download fails, and lets a failing
    installer invocation propagate. -/
def gitStep (env : RunEnv) (st : St) : St × Except PyExc Unit :=
  let st := emit gitSectionHeader st
  let (st, g1) := probeTool env.gitProbe1 "git" (some "--version") st
  if g1 then
    (emit "Git is already installed or was installed previously." st, Except.ok ())
  else
    let (st, wingetAvail) :=
      if env.wingetAvailable then
        let st := emit "Winget detected. Attempting Git installation via winget (may require admin rights)..." st
        let (st, r) := runCommandCall ("winget install --id " ++ GIT_WINGET_ID ++ " -e --source winget --accept-package-agreements --accept-source-agreements") env.wingetRunOk st
        match r with
        | Except.ok _ =>
            let (st, g2) := probeTool env.gitProbeAfterWinget "git" (some "--version") st
            if g2 then (emit "Git installed successfully via winget." st, true)
            else (emit "Git installation via winget may have failed or requires a shell restart. Will try manual download." st, false)
        | Except.error _ =>
            (emit "Winget installation failed. Falling back to manual download." st, false)
      else (st, false)
    if wingetAvail then (st, Except.ok ())
    else
      let (st, g3) := probeTool env.gitProbeManualGuard "git" (some "--version") st
      if g3 then (st, Except.ok ())
      else
        let st := emit "Attempting manual Git installation..." st
        let (st, dl) := downloadCall GIT_INSTALLER_URL gitInstallerPath env.gitDl st
        if dl then
          let st := emit ("Running Git installer: " ++ gitInstallerPath ++ " (may require admin rights)...") st
          let (st, r) := runCommandCall (gitInstallerPath ++ " /VERYSILENT /NORESTART /SUPPRESSMSGBOXES") env.gitInstallerRunOk st
          match r with
          | Except.error e => (st, Except.error e)
          | Except.ok _ =>
              let st := emit "Git installation command finished. NOTE: A shell or PC restart might be needed for PATH changes to take effect." st
              let (st, g4) := probeTool env.gitProbeAfterManual "git" (some "--version") st
              if g4 then (st, Except.ok ())
              else (emit "WARNING: Git installed, but git command might not be in PATH yet. Restart shell/PC if subsequent steps fail." st, Except.ok ())
        else
          let st := emit "ERROR: Failed to download Git installer." st
          (st, Except.error (PyExc.runtimeError "Git download failed."))

/-- installer.py lines 107-134: check/install the Node.js runtime.  The npm
    probe only runs when the node probe succeeded (Python or-short-circuit).
    Download failure raises; a failing msiexec run propagates.  Yields the
    node_installed flag, true on every non-raising path. -/
def nodeStep (env : RunEnv) (st : St) : St × Except PyExc Bool :=
  let st := emit nodeSectionHeader st
  let (st, n1) := probeTool env.nodeProbe1 "node" (some "--version") st
  let (st, needInstall) :=
    if n1 then
      let (st, m1) := probeTool env.npmProbe1 "npm" (some "--version") st
      (st, !m1)
    else (st, true)
  if needInstall then
    let st := emit "Node.js or npm not found. Attempting installation..." st
    let (st, dl) := downloadCall NODE_INSTALLER_URL nodeInstallerPath env.nodeDl st
    if dl then
      let st := emit ("Running Node.js MSI installer: " ++ nodeInstallerPath ++ " (may require admin rights)...") st
      let (st, r) := runCommandCall ("msiexec.exe /i " ++ nodeInstallerPath ++ " /quiet /qn /norestart") env.msiRunOk st
      match r with
      | Except.error e => (st, Except.error e)
      | Except.ok _ =>
          (emit "Node.js installation command finished. MSI installer should update PATH." st,
           Except.ok true)
    else
      let st := emit "ERROR: Failed to download Node.js installer. Cannot proceed." st
      (st, Except.error (PyExc.runtimeError "Node.js download failed."))
  else
    (emit "Node.js and npm seem to be installed." st, Except.ok true)

def nodejsDir (pf : String) : String := joinWin pf "nodejs"

def gitCmdDir (pf : String) : String := joinWin (joinWin pf "Git") "cmd"

/-- installer.py lines 136-152: when node_installed, append the conventional
    install locations to the process PATH via update_process_path, then
    re-probe node, npm and git purely for diagnostic logging. -/
def pathRefreshStep (env : RunEnv) (nodeInstalled : Bool) (st : St) : St × Except PyExc Unit :=
  if nodeInstalled then
    let st := emit "Attempting to update process PATH for Node/Git..." st
    let st := update_process_path [nodejsDir env.programFiles, gitCmdDir env.programFiles] st
    let st := emit "Re-checking tools after potential PATH update..." st
    let (st, _) := probeTool env.nodeProbe2 "node" (some "--version") st
    let (st, _) := probeTool env.npmProbe2 "npm" (some "--version") st
    let (st, _) := probeTool env.gitProbe2 "git" (some "--version") st
    (st, Except.ok ())
  else (st, Except.ok ())

/-- installer.py lines 155-205: stale artifact cleanup (warn-only), project
    zip download (fatal on failure), extraction with layout verification
    (the inner except re-raises after logging), and zip cleanup in finally. -/
def archiveStep (env : RunEnv) (st : St) : St × Except PyExc Unit :=
  let st := emit "\n--- Downloading and Extracting Mindcraft Project ---" st
  let st :=
    if env.staleZipExists then
      let st := emit ("Removing existing file: " ++ projectZipPath) st
      if env.staleZipRemoveOk then st
      else emit ("WARNING: Could not remove existing zip file " ++ projectZipPath) st
    else st
  let st :=
    if env.staleDirExists then
      let st := emit ("Removing existing directory: " ++ projectExtractedPath) st
      if env.staleDirRemoveOk then emit "Removed directory successfully." st
      else emit ("WARNING: Could not remove existing directory " ++ projectExtractedPath ++ ". Attempting to continue...") st
    else st
  let (st, dl) := downloadCall PROJECT_ZIP_URL projectZipPath env.projDl st
  if dl then
    let st := emit ("Extracting " ++ projectZipPath ++ " to " ++ installRoot ++ "...") st
    let (st, inner) :=
      if env.zipExtractOk then
        let st := emit "Extraction complete." st
        if env.extractedDirExists then
          (emit ("Verified extracted folder: " ++ projectExtractedPath) st,
           Except.ok ())
        else
          (st, Except.error (PyExc.runtimeError ("Extraction seemed complete, but expected folder " ++ projectExtractedPath ++ " not found!")))
      else (st, Except.error PyExc.badZipFile)
    let (st, res) :=
      match inner with
      | Except.ok _ => (st, Except.ok ())
      | Except.error PyExc.badZipFile =>
          (emit ("ERROR: Downloaded file " ++ projectZipPath ++ " is not a valid zip file.") st,
           Except.error PyExc.badZipFile)
      | Except.error e =>
          (emit "ERROR: Failed to extract zip file." st, Except.error e)
    let st :=
      if env.zipCleanupExists then
        let st := emit ("Removing downloaded zip file: " ++ projectZipPath) st
        if env.zipCleanupRemoveOk then st
        else emit ("WARNING: Could not remove zip file " ++ projectZipPath) st
      else st
    (st, res)
  else
    let st := emit "ERROR: Failed to download project zip file. Cannot proceed." st
    (st, Except.error (PyExc.runtimeError "Project download failed."))

/-- installer.py lines 208-232: npm install via the streaming runner; a false
    verdict, a missing npm, or a missing project directory all raise. -/
def npmStep (env : RunEnv) (st : St) : St × Except PyExc Unit :=
  let st := emit "\n--- Running npm install ---" st
  if env.projectDirAtNpm then
    let (st, npmOk) := probeTool env.npmProbeForInstall "npm" none st
    if npmOk then
      let st := emit ("Running npm install in " ++ projectExtractedPath ++ "...") st
      let r := stream_command "npm install" env.npmStream
      let st := emitMany r.logs st
      if r.result then
        (emit "npm install stream completed successfully." st, Except.ok ())
      else
        let st := emit "ERROR: npm install failed. Check logs above." st
        (st, Except.error (PyExc.runtimeError "npm install failed."))
    else
      let st := emit "ERROR: npm command not found. Cannot run npm install. Please ensure Node.js installed correctly and restart if necessary." st
      (st, Except.error (PyExc.runtimeError "npm not found, cannot run install."))
  else
    let st := emit ("ERROR: Project directory " ++ projectExtractedPath ++ " not found. Cannot run npm install.") st
    (st, Except.error (PyExc.runtimeError "Project directory missing."))

/-- installer.py lines 235-255 inside the pipeline: section header plus the
    rename step; never raises. -/
def keysStepO (env : RunEnv) (st : St) : St × Except PyExc Unit :=
  let st := emit "\n--- Renaming keys.example.json ---" st
  let r := renameKeysStep env.renameOk env.keysFS
  (emitMany r.logs st, Except.ok ())

/-- installer.py lines 258-261: write config.json with keys downloaded and
    settings; an IOError from open/write propagates to the outer handler. -/
def configStep (env : RunEnv) (st : St) : St × Except PyExc Unit :=
  let st := emit "\n--- Adding config.json to store launcher options ---" st
  if env.configWriteOk then
    ({ st with configKeys := some configDocKeys }, Except.ok ())
  else (st, Except.error PyExc.ioError)

/-- installer.py lines 51-266: the try block of InstallerWorker.run, steps
    sequenced with fail-fast propagation, ending in the success log line. -/
def tryBody (env : RunEnv) (st : St) : St × Except PyExc Unit :=
  let s1 := prepDirs env st
  match s1.2 with
  | Except.error e => (s1.1, Except.error e)
  | Except.ok _ =>
    let s2 := gitStep env s1.1
    match s2.2 with
    | Except.error e => (s2.1, Except.error e)
    | Except.ok _ =>
      let s3 := nodeStep env s2.1
      match s3.2 with
      | Except.error e => (s3.1, Except.error e)
      | Except.ok nodeInstalled =>
        let s4 := pathRefreshStep env nodeInstalled s3.1
        match s4.2 with
        | Except.error e => (s4.1, Except.error e)
        | Except.ok _ =>
          let s5 := archiveStep env s4.1
          match s5.2 with
          | Except.error e => (s5.1, Except.error e)
          | Except.ok _ =>
            let s6 := npmStep env s5.1
            match s6.2 with
            | Except.error e => (s6.1, Except.error e)
            | Except.ok _ =>
              let s7 := keysStepO env s6.1
              match s7.2 with
              | Except.error e => (s7.1, Except.error e)
              | Except.ok _ =>
                let s8 := configStep env s7.1
                match s8.2 with
                | Except.error e => (s8.1, Except.error e)
                | Except.ok _ =>
                  (emit "\n--- Installation process completed successfully! ---" s8.1,
                   Except.ok ())

/-- installer.py lines 268-275: the outer except block log lines. -/
def fatalLogs (e : PyExc) : List String :=
  ["\n--- FATAL ERROR DURING INSTALLATION ---",
   "Error Type: " ++ excName e,
   "Error Message: " ++ excMsg e,
   "Detailed traceback:",
   "Installation failed. Please check the logs."]

/-- installer.py lines 277-284: the finally block restores the original
    working directory when it was changed, best-effort. -/
def finallyChdir (env : RunEnv) (st : St) : St :=
  if st.cwdChanged then
    if env.chdirBackOk then emit "Returned to original directory." st
    else emit "WARNING: Could not return to original directory." st
  else st

/-- Signals delivered to the supervisor, in emission order. -/
inductive Event where
  | logLine (s : String)
  | finished (b : Bool)
deriving DecidableEq

def isFin : Event → Bool
  | Event.finished _ => true
  | Event.logLine _ => false

structure RunRes where
  success : Bool
  logs : List String
  events : List Event
  finalSt : St
deriving DecidableEq

/-- installer.py lines 45-287, InstallerWorker.run: initial log, try block,
    outer except converting any raise into the fatal logs and success=false,
    finally block restoring the directory and emitting finished(success)
    exactly once, after every log line. -/
def runWorker (env : RunEnv) : RunRes :=
  let st0 := initSt env
  let p := tryBody env st0
  let q : St × Bool :=
    match p.2 with
    | Except.ok _ => (p.1, true)
    | Except.error e => (emitMany (fatalLogs e) p.1, false)
  let st3 := finallyChdir env q.1
  { success := q.2, logs := st3.logs,
    events := st3.logs.map Event.logLine ++ [Event.finished q.2],
    finalSt := st3 }

def nodeFlag : Except PyExc Bool → Bool
  | Except.ok b => b
  | Except.error _ => false

/-- The conjunction, step by step along the actual state thread, that every
    pipeline step of the try block completed without raising. -/
def stepsAllOk (env : RunEnv) : Bool :=
  let s1 := prepDirs env (initSt env)
  isOkE s1.2 &&
    (let s2 := gitStep env s1.1
     isOkE s2.2 &&
       (let s3 := nodeStep env s2.1
        isOkE s3.2 &&
          (let s4 := pathRefreshStep env (nodeFlag s3.2) s3.1
           isOkE s4.2 &&
             (let s5 := archiveStep env s4.1
              isOkE s5.2 &&
                (let s6 := npmStep env s5.1
                 isOkE s6.2 &&
                   (let s7 := keysStepO env s6.1
                    isOkE s7.2 &&
                      (let s8 := configStep env s7.1
                       isOkE s8.2)))))))

/-- The three log lines of a successful directory-preparation step. -/
def prepLogs : List String :=
  ["Ensuring base directory exists: " ++ installRoot,
   "Ensuring installer directory exists: " ++ installerDir,
   "Changed working directory to: " ++ installRoot]

/-- The log lines gitStep emits on the path where git is absent, winget is
    unavailable, and the manual installer download fails with world w. -/
def gitFailLogs (w : DlWorld) : List String :=
  [gitSectionHeader, checkingMsg "git", "git not found in PATH.",
   checkingMsg "git", "git not found in PATH.",
   "Attempting manual Git installation..."] ++
    (download_file GIT_INSTALLER_URL gitInstallerPath w).logs ++
    ["ERROR: Failed to download Git installer."]

/-- A concrete run in which git is absent, winget is unavailable, and the
    git installer download times out; everything downstream would succeed. -/
def cexEnvGit : RunEnv :=
  { programFiles := "C:\\Program Files",
    basePath := [],
    mkdirBaseOk := true, mkdirInstOk := true, chdirOk := true,
    gitProbe1 := false,
    wingetAvailable := false,
    wingetRunOk := true,
    gitProbeAfterWinget := false,
    gitProbeManualGuard := false,
    gitDl := { outcome := FetchOutcome.timeout, partialOnFail := false, removeOk := true },
    gitInstallerRunOk := true,
    gitProbeAfterManual := true,
    nodeProbe1 := true, npmProbe1 := true,
    nodeDl := { outcome := FetchOutcome.success, partialOnFail := false, removeOk := true },
    msiRunOk := true,
    nodeProbe2 := true, npmProbe2 := true, gitProbe2 := true,
    staleZipExists := false, staleZipRemoveOk := true,
    staleDirExists := false, staleDirRemoveOk := true,
    projDl := { outcome := FetchOutcome.success, partialOnFail := false, removeOk := true },
    zipExtractOk := true, extractedDirExists := true,
    zipCleanupExists := true, zipCleanupRemoveOk := true,
    projectDirAtNpm := true, npmProbeForInstall := true,
    npmStream := StreamBehavior.runs [] 0,
    keysFS := { exampleKey := some "KEYS", finalKey := none },
    renameOk := true,
    configWriteOk := true,
    chdirBackOk := true }

/-- A download world where the fetch fails on write and the cleanup removal
    of the partial file also fails. -/
def cexDlWorld : DlWorld :=
  { outcome := FetchOutcome.ioError, partialOnFail := true, removeOk := false }

/-- A download world where the fetch times out and cleanup succeeds. -/
def witDlWorld : DlWorld :=
  { outcome := FetchOutcome.timeout, partialOnFail := true, removeOk := true }

/- =====================================================================
   Theorems
   ===================================================================== -/

theorem map_id_of_mem {α : Type} (f : α → α) (l : List α) (h : ∀ a ∈ l, f a = a) :
    l.map f = l := by
  induction l with
  | nil => rfl
  | cons a t ih =>
      simp only [List.map_cons]
      rw [h a (by simp), ih (fun b hb => h b (by simp [hb]))]

/-- Claim C2: the installer finalization writes a config document whose keys
    are exactly downloaded and settings, and the main window read of the key
    installed_time on such a document raises KeyError, for every timestamp. -/
theorem claim_C2 (t : Int) :
    (installerConfig t).map Prod.fst = configDocKeys ∧
    mainWindowInstalledTimeRead (installerConfig t) = Except.error PyExc.keyError := by
  exact ⟨rfl, rfl⟩

/-- Claim C6: for every search-path world and every requested version flag,
    the tool probe returns true exactly when shutil.which resolves the name;
    in particular it returns true for every resolvable name regardless of
    what the version-query child process would do, and false for every
    unresolvable name. -/
theorem claim_C6 (w : ProbeWorld) (tool flag : String) :
    (is_tool_installed w tool (some flag)).result = w.whichResult.isSome := by
  obtain ⟨wr, co⟩ := w
  cases wr <;> rfl

/-- Claim C7: the probe result coincides with search-path resolvability, the
    run_command signature has no capture_output parameter, the version-query
    call raises TypeError at keyword binding in every world, and no version
    child process is ever spawned. -/
theorem claim_C7 (w : ProbeWorld) (tool flag : String) :
    (is_tool_installed w tool (some flag)).result = w.whichResult.isSome ∧
    (is_tool_installed w tool (some flag)).childSpawned = false ∧
    run_command_capture w = (Except.error PyExc.typeError, false) ∧
    run_command_params.contains "capture_output" = false := by
  obtain ⟨wr, co⟩ := w
  refine ⟨?_, ?_, ?_, ?_⟩
  · cases wr <;> rfl
  · cases wr <;> rfl
  · rfl
  · rfl

/-- Claim C8: a streamed command that emits the given lines forwards exactly
    those lines to the log sink, in production order, between the header and
    the verdict line; the verdict is true exactly for exit code zero; an
    unresolvable program is logged and yields false without raising. -/
theorem claim_C8 (cmd : String) (lines : List String) (code : Int)
    (h : ∀ l ∈ lines, pyRstrip l = l) :
    (stream_command cmd (StreamBehavior.runs lines code)).logs =
      ("Streaming command: " ++ cmd) ::
        (lines ++ [if code == 0 then "Command finished successfully (Return Code: 0)."
                   else "ERROR: Command failed (Return Code: " ++ toString code ++ ")."]) ∧
    (stream_command cmd (StreamBehavior.runs lines code)).result = (code == 0) ∧
    (stream_command cmd StreamBehavior.progNotFound).result = false ∧
    "ERROR: Command not found - ensure the program is installed and in PATH." ∈
      (stream_command cmd StreamBehavior.progNotFound).logs := by
  have hm : lines.map pyRstrip = lines := map_id_of_mem pyRstrip lines h
  cases hc : code == 0 <;>
    simp [stream_command, hc, hm]

theorem claim_C8_witness :
    (stream_command "npm install" (StreamBehavior.runs ["added 1 package", "audited 2 packages"] 0)).logs =
      ("Streaming command: " ++ "npm install") ::
        (["added 1 package", "audited 2 packages"] ++
          [if (0 : Int) == 0 then "Command finished successfully (Return Code: 0)."
           else "ERROR: Command failed (Return Code: " ++ toString (0 : Int) ++ ")."]) ∧
    (stream_command "npm install" (StreamBehavior.runs ["added 1 package", "audited 2 packages"] 0)).result = ((0 : Int) == 0) ∧
    (stream_command "npm install" StreamBehavior.progNotFound).result = false ∧
    "ERROR: Command not found - ensure the program is installed and in PATH." ∈
      (stream_command "npm install" StreamBehavior.progNotFound).logs :=
  claim_C8 "npm install" ["added 1 package", "audited 2 packages"] 0 (by decide)

/-- Claim C5 counterexample: a write failure after which the partial file
    exists and its removal raises OSError leaves the partial file in place,
    so the claim that no partial file ever remains is false at this input. -/
theorem claim_C5_cex :
    (download_file "http://artifact" "D:\\dest.bin" cexDlWorld).result = false ∧
    (download_file "http://artifact" "D:\\dest.bin" cexDlWorld).fileRemains = true := by
  exact ⟨rfl, rfl⟩

/-- Claim C5 as amended: on every failure mode the fetcher logs the cause,
    returns false and propagates nothing; the partial file is removed unless
    the removal itself fails with an OSError (a logged warning), in which
    case the partial file remains. -/
theorem claim_C5_thm (url dest : String) (w : DlWorld) (h : isFail w.outcome = true) :
    (download_file url dest w).result = false ∧
    (download_file url dest w).propagated = none ∧
    dlCauseLog url dest w.outcome ∈ (download_file url dest w).logs ∧
    (download_file url dest w).fileRemains = (w.partialOnFail && !w.removeOk) := by
  obtain ⟨o, pf, rk⟩ := w
  cases o
  · cases h
  all_goals
    cases pf <;> cases rk <;>
      refine ⟨rfl, rfl, ?_, rfl⟩ <;>
        simp [download_file, downloadFail, dlCauseLog]

theorem claim_C5_witness :
    (download_file "http://artifact" "D:\\dest.bin" witDlWorld).result = false ∧
    (download_file "http://artifact" "D:\\dest.bin" witDlWorld).propagated = none ∧
    dlCauseLog "http://artifact" "D:\\dest.bin" witDlWorld.outcome ∈
      (download_file "http://artifact" "D:\\dest.bin" witDlWorld).logs ∧
    (download_file "http://artifact" "D:\\dest.bin" witDlWorld).fileRemains =
      (witDlWorld.partialOnFail && !witDlWorld.removeOk) :=
  claim_C5_thm "http://artifact" "D:\\dest.bin" witDlWorld (by decide)

/-- Claim C10 counterexample: with the template present, the final file
    absent, and os.rename failing with OSError, the step leaves both files
    unchanged, so the claim that keys.json then exists is false here. -/
theorem claim_C10_cex :
    (renameKeysStep false { exampleKey := some "KEYS", finalKey := none }).fs.finalKey = none ∧
    (renameKeysStep false { exampleKey := some "KEYS", finalKey := none }).fs.exampleKey = some "KEYS" := by
  exact ⟨rfl, rfl⟩

/-- Claim C10 as amended: when the template exists, the final file does not,
    and the rename succeeds, the template becomes keys.json with its content
    and keys.example.json is gone; when the rename raises OSError the step
    logs it and changes no files; a pre-existing final file or an absent
    template also change no files; the step never raises. -/
theorem claim_C10_thm (c : String) (fs : KeyFS) (b : Bool) :
    (fs.exampleKey = some c → fs.finalKey = none →
      (renameKeysStep true fs).fs = { exampleKey := none, finalKey := some c }) ∧
    (fs.exampleKey = some c → fs.finalKey = none →
      (renameKeysStep false fs).fs = fs) ∧
    (fs.finalKey.isSome = true → (renameKeysStep b fs).fs = fs) ∧
    (fs.exampleKey = none → (renameKeysStep b fs).fs = fs) := by
  obtain ⟨ek, fk⟩ := fs
  cases ek <;> cases fk <;> cases b <;>
    simp [renameKeysStep]

theorem claim_C10_witness :
    (renameKeysStep true { exampleKey := some "KEYS", finalKey := none }).fs =
      { exampleKey := none, finalKey := some "KEYS" } :=
  (claim_C10_thm "KEYS" { exampleKey := some "KEYS", finalKey := none } true).1 rfl rfl

theorem countP_map_logLine (ls : List String) : (ls.map Event.logLine).countP isFin = 0 := by
  induction ls with
  | nil => rfl
  | cons a t ih => simp [List.countP_cons, isFin, ih]

/-- Claim C9: for every run the event stream delivered to the supervisor is
    the ordered log lines followed by a single finished event carrying the
    outcome; the finished event occurs exactly once and strictly after every
    log event. -/
theorem claim_C9 (env : RunEnv) :
    (runWorker env).events =
      (runWorker env).logs.map Event.logLine ++ [Event.finished (runWorker env).success] ∧
    (runWorker env).events.countP isFin = 1 := by
  have h : (runWorker env).events =
      (runWorker env).logs.map Event.logLine ++ [Event.finished (runWorker env).success] := rfl
  refine ⟨h, ?_⟩
  rw [h, List.countP_append, countP_map_logLine]
  rfl

/-- Claim C4: the outcome delivered to the supervisor is success exactly when
    every step of the try block, threaded in pipeline order, completed
    without raising; any raised condition yields success = false. -/
theorem claim_C4 (env : RunEnv) : (runWorker env).success = stepsAllOk env := by
  have hs : (runWorker env).success = isOkE (tryBody env (initSt env)).2 := by
    cases hp : (tryBody env (initSt env)).2 <;> simp [runWorker, hp, isOkE]
  rw [hs]
  cases h1 : (prepDirs env (initSt env)).2 with
  | error e => simp [tryBody, stepsAllOk, h1, isOkE]
  | ok u1 =>
  cases h2 : (gitStep env (prepDirs env (initSt env)).1).2 with
  | error e => simp [tryBody, stepsAllOk, h1, h2, isOkE]
  | ok u2 =>
  cases h3 : (nodeStep env (gitStep env (prepDirs env (initSt env)).1).1).2 with
  | error e => simp [tryBody, stepsAllOk, h1, h2, h3, isOkE, nodeFlag]
  | ok b3 =>
  cases h4 : (pathRefreshStep env b3
      (nodeStep env (gitStep env (prepDirs env (initSt env)).1).1).1).2 with
  | error e => simp [tryBody, stepsAllOk, h1, h2, h3, h4, isOkE, nodeFlag]
  | ok u4 =>
  cases h5 : (archiveStep env (pathRefreshStep env b3
      (nodeStep env (gitStep env (prepDirs env (initSt env)).1).1).1).1).2 with
  | error e => simp [tryBody, stepsAllOk, h1, h2, h3, h4, h5, isOkE, nodeFlag]
  | ok u5 =>
  cases h6 : (npmStep env (archiveStep env (pathRefreshStep env b3
      (nodeStep env (gitStep env (prepDirs env (initSt env)).1).1).1).1).1).2 with
  | error e => simp [tryBody, stepsAllOk, h1, h2, h3, h4, h5, h6, isOkE, nodeFlag]
  | ok u6 =>
  cases h7 : (keysStepO env (npmStep env (archiveStep env (pathRefreshStep env b3
      (nodeStep env (gitStep env (prepDirs env (initSt env)).1).1).1).1).1).1).2 with
  | error e => simp [tryBody, stepsAllOk, h1, h2, h3, h4, h5, h6, h7, isOkE, nodeFlag]
  | ok u7 =>
  cases h8 : (configStep env (keysStepO env (npmStep env (archiveStep env (pathRefreshStep env b3
      (nodeStep env (gitStep env (prepDirs env (initSt env)).1).1).1).1).1).1).1).2 with
  | error e => simp [tryBody, stepsAllOk, h1, h2, h3, h4, h5, h6, h7, h8, isOkE, nodeFlag]
  | ok u8 => simp [tryBody, stepsAllOk, h1, h2, h3, h4, h5, h6, h7, h8, isOkE, nodeFlag]

/-- Claim C1: on every run that reaches the path-refresh step (node_installed
    is true there on all such runs), the step completes without raising, the
    process search-path view gains exactly the program-files nodejs directory
    and the Git cmd directory via update_process_path, and node, npm and git
    are re-probed for diagnostic logging afterwards. -/
theorem bindOk_eq : bindOk = false := rfl

theorem claim_C1 (env : RunEnv) (st : St) :
    (pathRefreshStep env true st).2 = Except.ok () ∧
    (pathRefreshStep env true st).1.path =
      st.path ++ [nodejsDir env.programFiles, gitCmdDir env.programFiles] ∧
    checkingMsg "node" ∈ (pathRefreshStep env true st).1.logs ∧
    checkingMsg "npm" ∈ (pathRefreshStep env true st).1.logs ∧
    checkingMsg "git" ∈ (pathRefreshStep env true st).1.logs := by
  cases hn : env.nodeProbe2 <;> cases hm : env.npmProbe2 <;> cases hg : env.gitProbe2 <;>
    refine ⟨rfl, rfl, ?_, ?_, ?_⟩ <;>
      simp [pathRefreshStep, update_process_path, probeTool, is_tool_installed,
            run_command_capture, bindOk_eq, emit, emitMany, hn, hm, hg]

/-- Claim C3 counterexample: in the concrete run cexEnvGit (git absent,
    winget unavailable, git installer download fails) the run reports
    failure and the pipeline never reaches the Node.js section, refuting
    the claim that a git download failure is non-fatal. -/
theorem claim_C3_cex :
    (runWorker cexEnvGit).success = false ∧
    (runWorker cexEnvGit).logs.contains nodeSectionHeader = false := by
  exact ⟨rfl, rfl⟩

theorem download_result_of_fail (url dest : String) (w : DlWorld)
    (h : isFail w.outcome = true) : (download_file url dest w).result = false := by
  obtain ⟨o, pf, rk⟩ := w
  cases o
  · cases h
  all_goals cases pf <;> cases rk <;> rfl

theorem prepDirs_eq (env : RunEnv) (st : St)
    (h1 : env.mkdirBaseOk = true) (h2 : env.mkdirInstOk = true) (h3 : env.chdirOk = true) :
    prepDirs env st =
      ({ st with logs := st.logs ++ prepLogs, cwdChanged := true }, Except.ok ()) := by
  simp [prepDirs, h1, h2, h3, emit, prepLogs]

theorem gitStep_fail (env : RunEnv) (st : St)
    (hg : env.gitProbe1 = false) (hw : env.wingetAvailable = false)
    (hg2 : env.gitProbeManualGuard = false) (hd : isFail env.gitDl.outcome = true) :
    gitStep env st = (emitMany (gitFailLogs env.gitDl) st,
      Except.error (PyExc.runtimeError "Git download failed.")) := by
  simp [gitStep, probeTool, is_tool_installed, hg, hw, hg2, downloadCall,
        download_result_of_fail GIT_INSTALLER_URL gitInstallerPath env.gitDl hd,
        emit, emitMany, gitFailLogs, checkingMsg]

theorem noHeaderInGitFail (w : DlWorld) : nodeSectionHeader ∉ gitFailLogs w := by
  obtain ⟨o, pf, rk⟩ := w
  cases o <;> cases pf <;> cases rk <;> decide

/-- Claim C3 as amended: a download failure of the git installer, on any run
    that reaches the manual download (git absent, winget path unavailable),
    is fatal: the try block raises RuntimeError with message Git download
    failed., the run reports failure, and the Node.js section is never
    reached. -/
theorem claim_C3_thm (env : RunEnv)
    (h1 : env.mkdirBaseOk = true) (h2 : env.mkdirInstOk = true) (h3 : env.chdirOk = true)
    (hg : env.gitProbe1 = false) (hw : env.wingetAvailable = false)
    (hg2 : env.gitProbeManualGuard = false) (hd : isFail env.gitDl.outcome = true) :
    (tryBody env (initSt env)).2 = Except.error (PyExc.runtimeError "Git download failed.") ∧
    (runWorker env).success = false ∧
    nodeSectionHeader ∉ (runWorker env).logs := by
  have hp := prepDirs_eq env (initSt env) h1 h2 h3
  have hgs : ∀ st, gitStep env st = (emitMany (gitFailLogs env.gitDl) st,
      Except.error (PyExc.runtimeError "Git download failed.")) :=
    fun st => gitStep_fail env st hg hw hg2 hd
  have ht : tryBody env (initSt env) =
      (emitMany (gitFailLogs env.gitDl)
        { initSt env with logs := (initSt env).logs ++ prepLogs, cwdChanged := true },
       Except.error (PyExc.runtimeError "Git download failed.")) := by
    simp [tryBody, hp, hgs]
  refine ⟨by rw [ht], by simp [runWorker, ht], ?_⟩
  have hl : (runWorker env).logs =
      ((initSt env).logs ++ prepLogs ++ gitFailLogs env.gitDl ++
        fatalLogs (PyExc.runtimeError "Git download failed.")) ++
        [if env.chdirBackOk then "Returned to original directory."
         else "WARNING: Could not return to original directory."] := by
    cases hcb : env.chdirBackOk <;>
      simp [runWorker, ht, emitMany, emit, finallyChdir, hcb, List.append_assoc]
  rw [hl]
  simp only [List.mem_append, List.mem_singleton, not_or]
  refine ⟨⟨⟨⟨?_, by decide⟩, noHeaderInGitFail env.gitDl⟩, by decide⟩, ?_⟩
  · show nodeSectionHeader ∉ ["Installation process started."]
    decide
  · cases hcb : env.chdirBackOk <;> simp [hcb] <;> decide

theorem claim_C3_thm_witness :
    (tryBody cexEnvGit (initSt cexEnvGit)).2 =
      Except.error (PyExc.runtimeError "Git download failed.") ∧
    (runWorker cexEnvGit).success = false ∧
    nodeSectionHeader ∉ (runWorker cexEnvGit).logs :=
  claim_C3_thm cexEnvGit rfl rfl rfl rfl rfl rfl (by decide)

end Mindcraft
